import Mathlib

/-!
Shallow embedding of `plugins/auth-backend/src/providers/google/provider.ts`
(the `GoogleAuthProvider` class): the `start`, `frameHandler`, `logout` and
`refresh` route handlers, together with the cookie policy constants.

Modelling conventions:
- A JavaScript object whose string-valued properties matter (the cookies map
  of a request, the user session object produced by the passport strategy)
  is an association list `JsObj := List (String × String)`; an absent key is
  an `undefined` property.
- A value that can be `undefined` in JavaScript is an `Option`.
- JavaScript falsiness of a possibly-undefined string (`!x`) is `jsFalsy`:
  the value is `undefined` or the empty string.
- Randomness (`crypto.randomBytes(16)`) is an explicit input: the byte list
  the generator returned.
- Each handler is a pure function from its request data (and, where the code
  hands control to the OAuth2 library, from the result that library would
  deliver to the inline callback) to a result record describing the response
  and every side effect on the response object (cookies set, IdP calls made).
-/

/-- `THOUSAND_DAYS_MS` from the source: `1000 * 24 * 60 * 60 * 1000`. -/
def THOUSAND_DAYS_MS : Nat := 1000 * 24 * 60 * 60 * 1000

/-- `TEN_MINUTES_MS` from the source: `600 * 1000`. -/
def TEN_MINUTES_MS : Nat := 600 * 1000

/-- The express `CookieOptions` fields the source sets. -/
structure CookieOptions where
  maxAge : Nat
  secure : Bool
  sameSite : String
  domain : String
  path : String
  httpOnly : Bool
deriving DecidableEq, Repr

/-- One `res.cookie(name, value, options)` call. -/
structure SetCookie where
  name : String
  value : String
  options : CookieOptions
deriving DecidableEq, Repr

/-- A JavaScript object with string-valued properties, as an association
list; an absent key models an `undefined` property. -/
def JsObj : Type := List (String × String)

instance : DecidableEq JsObj := by unfold JsObj; infer_instance

instance : Repr JsObj := by unfold JsObj; infer_instance

/-- Property read `o[k]`: the first binding of `k`, or `undefined`. -/
def jsGet : JsObj → String → Option String
  | [], _ => none
  | p :: t, k => if p.1 = k then some p.2 else jsGet t k

/-- Property deletion `delete o.k`: removes every binding of `k` (a
JavaScript object has at most one). -/
def jsDelete : JsObj → String → JsObj
  | [], _ => []
  | p :: t, k => if p.1 = k then jsDelete t k else p :: jsDelete t k

/-- JavaScript falsiness of a possibly-undefined string: `!x` is true
exactly when `x` is `undefined` or the empty string. -/
def jsFalsy (o : Option String) : Prop := o = none ∨ o = some ""

instance (o : Option String) : Decidable (jsFalsy o) := by
  unfold jsFalsy; infer_instance

/-- The base64 alphabet, indexed 0–63. -/
def base64Chars : List Char :=
  "ABCDEFGHIJKLMNOPQRSTUVWXYZabcdefghijklmnopqrstuvwxyz0123456789+/".toList

/-- Character for a 6-bit group. -/
def base64Char (n : Nat) : Char := base64Chars.getD n 'A'

/-- Standard base64 of a byte list with `=` padding: the encoding
`Buffer.toString('base64')` performs on the bytes of
`crypto.randomBytes(16)`. -/
def base64Encode : List Nat → String
  | [] => ""
  | [a] =>
      String.mk [base64Char (a / 4 % 64), base64Char (a % 4 * 16), '=', '=']
  | [a, b] =>
      String.mk [base64Char (a / 4 % 64), base64Char (a % 4 * 16 + b / 16),
        base64Char (b % 16 * 4), '=']
  | a :: b :: c :: rest =>
      String.mk [base64Char (a / 4 % 64), base64Char (a % 4 * 16 + b / 16),
        base64Char (b % 16 * 4 + c / 64), base64Char (c % 64)]
        ++ base64Encode rest

/-- Modelled from the spec: `ensuresXRequestedWith` is imported from
`../utils`, whose source is not in the repository snapshot. Per the spec the
refresh/logout routes require the `X-Requested-With` header "present and
matching an expected value" (the conventional trusted value
`XMLHttpRequest`); the check returns whether the header matches it. -/
def ensuresXRequestedWith (header : Option String) : Bool :=
  decide (header = some "XMLHttpRequest")

/-- The object passed to `postMessageResponse`: `{ type: 'auth-result' }`
together with either a `payload` object or an `error` carrying a message.
(`postMessageResponse` itself lives in `../utils`, outside the snapshot; per
the spec it delivers exactly this object to the opener page via an in-page
`postMessage`, so the message content is modelled as this argument.) -/
inductive AuthResult where
  | ok (payload : JsObj)
  | err (message : String)
deriving DecidableEq, Repr

/-- What `frameHandler` writes to the response: a plain-text status
(`res.status(s).send(body)`) or the in-page message. -/
inductive FrameResponse where
  | text (status : Nat) (body : String)
  | message (result : AuthResult)
deriving DecidableEq, Repr

/-- Result of one `frameHandler` invocation: the cookies set on the
response, whether control reached the `passport.authenticate` token
exchange, and the response content. -/
structure FrameResult where
  cookies : List SetCookie
  exchangeInvoked : Bool
  response : FrameResponse
deriving DecidableEq, Repr

/-- What the token exchange delivers to the inline
`passport.authenticate('google', (err, user) => ...)` callback: an error, or
the user session object built by the strategy. -/
inductive ExchangeResult where
  | excErr (e : String)
  | excOk (user : JsObj)
deriving DecidableEq, Repr

/-- Outcome of `start`: the thrown `InputError`, or the delegation to
`passport.authenticate('google', {...})` with the options the code passes. -/
inductive StartOutcome where
  | inputError (message : String)
  | authenticate (scope accessType prompt state : String)
deriving DecidableEq, Repr

/-- Result of one `start` invocation: cookies set plus the outcome. -/
structure StartResult where
  cookies : List SetCookie
  outcome : StartOutcome
deriving DecidableEq, Repr

/-- An observable side effect of the `refresh`/`logout` handlers: a cookie
read from the request, a cookie written to the response, or the delegation
to `refresh.requestNewAccessToken` (the IdP refresh grant), in order. -/
inductive Effect where
  | readCookie (name : String)
  | writeCookie (c : SetCookie)
  | idpRefreshCall (refreshToken : String) (scopeParam : Option String)
deriving DecidableEq, Repr

/-- A plain response of `refresh`/`logout`: text with a status, or the JSON
object `res.send({...})` serializes (association list of fields; a `none`
value is a property that is `undefined` in the object literal). -/
inductive SimpleResponse where
  | text (status : Nat) (body : String)
  | json (body : List (String × Option String))
deriving DecidableEq, Repr

/-- Result of one `refresh`/`logout` invocation: the ordered effect trace
and the response. -/
structure HandlerResult where
  effects : List Effect
  response : SimpleResponse
deriving DecidableEq, Repr

/-- The `params` object the OAuth2 refresh grant hands to the
`requestNewAccessToken` callback; the fields the code reads. -/
structure RefreshParams where
  id_token : Option String
  expires_in : Option String
  scope : Option String
deriving DecidableEq, Repr

/-- What the OAuth2 refresh grant delivers to the `requestNewAccessToken`
callback `(err, accessToken, _refreshToken, params)`. `err` is `none` when
the grant succeeded (an `Error` object is always truthy in JavaScript). -/
structure RefreshGrant where
  err : Option String
  accessToken : Option String
  newRefreshToken : Option String
  params : RefreshParams
deriving DecidableEq, Repr

/-- The inline `options` literal of `start`: a 10-minute nonce cookie scoped
to the handler route. -/
def nonceCookieOptions (provider : String) : CookieOptions :=
  { maxAge := TEN_MINUTES_MS, secure := false, sameSite := "none",
    domain := "localhost", path := "/auth/" ++ provider ++ "/handler",
    httpOnly := true }

/-- The inline `options` literal of `frameHandler`: a 1000-day refresh-token
cookie scoped to the provider route. -/
def refreshCookieOptions (provider : String) : CookieOptions :=
  { maxAge := THOUSAND_DAYS_MS, secure := false, sameSite := "none",
    domain := "localhost", path := "/auth/" ++ provider, httpOnly := true }

/-- The inline `options` literal of `logout`: same scope as the
refresh-token cookie but `maxAge 0`. -/
def logoutCookieOptions (provider : String) : CookieOptions :=
  { maxAge := 0, secure := false, sameSite := "none",
    domain := "localhost", path := "/auth/" ++ provider, httpOnly := true }

namespace GoogleAuthProvider

/-- `GoogleAuthProvider.start`. Inputs: the provider id from the config, the
bytes `crypto.randomBytes(16)` returned, and `req.query.scope`. The code
sets the nonce cookie first and only then validates the scope. -/
def start (provider : String) (randomBytes : List Nat)
    (scopeQuery : Option String) : StartResult :=
  let nonce := base64Encode randomBytes
  let cookies := [⟨provider ++ "-nonce", nonce, nonceCookieOptions provider⟩]
  let scope := scopeQuery.getD ""
  if scope = "" then
    { cookies := cookies, outcome := .inputError "missing scope parameter" }
  else
    { cookies := cookies,
      outcome := .authenticate scope "offline" "consent" nonce }

/-- `GoogleAuthProvider.frameHandler`. Inputs: the provider id,
`req.cookies`, `req.query.state`, and the result the token exchange would
deliver to the inline callback if invoked. -/
def frameHandler (provider : String) (reqCookies : JsObj)
    (stateQuery : Option String) (exchange : ExchangeResult) : FrameResult :=
  let cookieNonce := jsGet reqCookies (provider ++ "-nonce")
  let stateNonce := stateQuery
  if jsFalsy cookieNonce ∨ jsFalsy stateNonce then
    { cookies := [], exchangeInvoked := false,
      response := .text 401 "Missing nonce" }
  else if cookieNonce ≠ stateNonce then
    { cookies := [], exchangeInvoked := false,
      response := .text 401 "Invalid nonce" }
  else
    match exchange with
    | .excErr e =>
        { cookies := [], exchangeInvoked := true,
          response := .message (.err ("Google auth failed, " ++ e)) }
    | .excOk user =>
        let refreshToken := jsGet user "refreshToken"
        if jsFalsy refreshToken then
          { cookies := [], exchangeInvoked := true,
            response := .message (.err "Missing refresh token") }
        else
          { cookies := [⟨provider ++ "-refresh-token",
              refreshToken.getD "", refreshCookieOptions provider⟩],
            exchangeInvoked := true,
            response := .message (.ok (jsDelete user "refreshToken")) }

/-- `GoogleAuthProvider.logout`. Inputs: the provider id and the
`X-Requested-With` request header (the handler reads nothing else from the
request). -/
def logout (provider : String) (xRequestedWith : Option String) :
    HandlerResult :=
  if !ensuresXRequestedWith xRequestedWith then
    { effects := [],
      response := .text 401 "Invalid X-Requested-With header" }
  else
    { effects := [.writeCookie ⟨provider ++ "-refresh-token", "",
        logoutCookieOptions provider⟩],
      response := .text 200 "logout!" }

/-- `GoogleAuthProvider.refresh`. Inputs: the provider id, the
`X-Requested-With` header, `req.cookies`, `req.query.scope`, and the result
the IdP refresh grant would deliver to the `requestNewAccessToken` callback
if invoked. -/
def refresh (provider : String) (xRequestedWith : Option String)
    (reqCookies : JsObj) (scopeQuery : Option String)
    (grant : RefreshGrant) : HandlerResult :=
  if !ensuresXRequestedWith xRequestedWith then
    { effects := [],
      response := .text 401 "Invalid X-Requested-With header" }
  else
    let refreshToken := jsGet reqCookies (provider ++ "-refresh-token")
    if jsFalsy refreshToken then
      { effects := [.readCookie (provider ++ "-refresh-token")],
        response := .text 401 "Missing session cookie" }
    else
      let scope := scopeQuery.getD ""
      let requestParams : Option String :=
        if scope ≠ "" then some scope else none
      let effects := [.readCookie (provider ++ "-refresh-token"),
        .idpRefreshCall (refreshToken.getD "") requestParams]
      if grant.err.isSome ∨ jsFalsy grant.accessToken then
        { effects := effects,
          response := .text 401 "Failed to refresh access token" }
      else
        { effects := effects,
          response := .json
            [("accessToken", grant.accessToken),
             ("idToken", grant.params.id_token),
             ("expiresInSeconds", grant.params.expires_in),
             ("scope", grant.params.scope)] }

end GoogleAuthProvider

open GoogleAuthProvider

/-- Deleting a property removes it: reading it back gives `undefined`. -/
theorem jsGet_jsDelete (o : JsObj) (k : String) :
    jsGet (jsDelete o k) k = none := by
  induction o with
  | nil => rfl
  | cons p t ih =>
      by_cases h : p.1 = k
      · simpa [jsDelete, h] using ih
      · simp [jsDelete, jsGet, h, ih]

/-- C1: when the token exchange succeeds and the session result carries a
(truthy) refresh token, the payload delivered to the browser via the
in-page message has no `refreshToken` field, while the refresh-token cookie
set in the same response carries the raw refresh token. -/
theorem frameHandler_success_redacts_refreshToken (provider : String)
    (reqCookies : JsObj) (stateQuery : Option String) (user : JsObj)
    (rt : String)
    (_hcn : ¬ jsFalsy (jsGet reqCookies (provider ++ "-nonce")))
    (hsn : ¬ jsFalsy stateQuery)
    (heq : jsGet reqCookies (provider ++ "-nonce") = stateQuery)
    (hrt : jsGet user "refreshToken" = some rt) (hne : rt ≠ "") :
    ∃ payload,
      (frameHandler provider reqCookies stateQuery (.excOk user)).response
        = .message (.ok payload) ∧
      jsGet payload "refreshToken" = none ∧
      (frameHandler provider reqCookies stateQuery (.excOk user)).cookies
        = [⟨provider ++ "-refresh-token", rt, refreshCookieOptions provider⟩] := by
  simp only [jsFalsy, not_or] at hsn
  refine ⟨jsDelete user "refreshToken", ?_, jsGet_jsDelete user "refreshToken", ?_⟩ <;>
    simp [frameHandler, jsFalsy, hsn, heq, hrt, hne]

/-- Witness for C1 at a concrete request. -/
theorem frameHandler_success_redacts_refreshToken_witness :
    ∃ payload,
      (frameHandler "google" [("google-nonce", "n")] (some "n")
          (.excOk [("profile", "p"), ("refreshToken", "rt1")])).response
        = .message (.ok payload) ∧
      jsGet payload "refreshToken" = none ∧
      (frameHandler "google" [("google-nonce", "n")] (some "n")
          (.excOk [("profile", "p"), ("refreshToken", "rt1")])).cookies
        = [⟨"google-refresh-token", "rt1", refreshCookieOptions "google"⟩] :=
  frameHandler_success_redacts_refreshToken "google" _ _ _ "rt1"
    (by decide) (by decide) (by decide) (by decide) (by decide)

/-- C2: a refresh-token cookie is set only when the exchange succeeded with
a truthy refresh token; and when the exchange succeeds past matching nonces
but the refresh token is absent, no cookie is set and the in-page error
result is exactly "Missing refresh token". -/
theorem frameHandler_cookie_requires_refresh_token (provider : String)
    (reqCookies : JsObj) (stateQuery : Option String)
    (exchange : ExchangeResult) :
    ((frameHandler provider reqCookies stateQuery exchange).cookies ≠ [] →
      ∃ user rt, exchange = .excOk user ∧
        jsGet user "refreshToken" = some rt ∧ rt ≠ "") ∧
    (∀ user, exchange = .excOk user →
      jsFalsy (jsGet user "refreshToken") →
      ¬ jsFalsy (jsGet reqCookies (provider ++ "-nonce")) →
      ¬ jsFalsy stateQuery →
      jsGet reqCookies (provider ++ "-nonce") = stateQuery →
      (frameHandler provider reqCookies stateQuery exchange).cookies = [] ∧
      (frameHandler provider reqCookies stateQuery exchange).response =
        .message (.err "Missing refresh token")) := by
  constructor
  · intro h
    by_cases h1 :
        jsFalsy (jsGet reqCookies (provider ++ "-nonce")) ∨ jsFalsy stateQuery
    · simp [frameHandler, h1] at h
    · simp only [not_or] at h1
      by_cases h2 : jsGet reqCookies (provider ++ "-nonce") = stateQuery
      · rcases exchange with e | user
        · simp [frameHandler, h1.1, h1.2, h2] at h
        · by_cases h3 : jsFalsy (jsGet user "refreshToken")
          · simp [frameHandler, h1.1, h1.2, h2, h3] at h
          · rcases ho : jsGet user "refreshToken" with _ | rt
            · exact absurd (Or.inl ho) h3
            · exact ⟨user, rt, rfl, ho,
                fun hrt => h3 (Or.inr (by rw [ho, hrt]))⟩
      · simp [frameHandler, h1.1, h1.2, h2] at h
  · intro user hex hfalsy hcn hsn heq
    subst hex
    simp only [jsFalsy, not_or] at hcn hsn
    simp only [jsFalsy] at hfalsy
    rcases hfalsy with hf | hf <;>
      simp [frameHandler, jsFalsy, hcn, hsn, heq, hf]

/-- Witness for C2 at a concrete request whose session lacks a refresh
token. -/
theorem frameHandler_cookie_requires_refresh_token_witness :
    (frameHandler "google" [("google-nonce", "n")] (some "n")
        (.excOk [("profile", "p")])).cookies = [] ∧
    (frameHandler "google" [("google-nonce", "n")] (some "n")
        (.excOk [("profile", "p")])).response =
      .message (.err "Missing refresh token") :=
  (frameHandler_cookie_requires_refresh_token "google"
      [("google-nonce", "n")] (some "n") (.excOk [("profile", "p")])).2
    [("profile", "p")] rfl (by decide) (by decide) (by decide) (by decide)

/-- C3: a strictly absent nonce cookie or state parameter yields 401
"Missing nonce"; both present (and truthy) but unequal yields 401 "Invalid
nonce"; in either case no cookie is set and the exchange is not invoked
(the full result record is the bare 401 response). -/
theorem frameHandler_nonce_errors (provider : String) (reqCookies : JsObj)
    (stateQuery : Option String) (exchange : ExchangeResult) :
    ((jsGet reqCookies (provider ++ "-nonce") = none ∨ stateQuery = none) →
      frameHandler provider reqCookies stateQuery exchange =
        ⟨[], false, .text 401 "Missing nonce"⟩) ∧
    (∀ a b, jsGet reqCookies (provider ++ "-nonce") = some a →
      stateQuery = some b → a ≠ "" → b ≠ "" → a ≠ b →
      frameHandler provider reqCookies stateQuery exchange =
        ⟨[], false, .text 401 "Invalid nonce"⟩) := by
  constructor
  · rintro (h | h) <;> simp [frameHandler, jsFalsy, h]
  · intro a b ha hb hae hbe hab
    simp [frameHandler, jsFalsy, ha, hb, hae, hbe, hab]

/-- Witness for C3: one request with no nonce cookie, one with mismatched
nonces. -/
theorem frameHandler_nonce_errors_witness :
    frameHandler "google" [] (some "b") (.excOk [("refreshToken", "rt")]) =
      ⟨[], false, .text 401 "Missing nonce"⟩ ∧
    frameHandler "google" [("google-nonce", "a")] (some "b")
        (.excOk [("refreshToken", "rt")]) =
      ⟨[], false, .text 401 "Invalid nonce"⟩ :=
  ⟨(frameHandler_nonce_errors "google" [] (some "b")
      (.excOk [("refreshToken", "rt")])).1 (Or.inl rfl),
   (frameHandler_nonce_errors "google" [("google-nonce", "a")] (some "b")
      (.excOk [("refreshToken", "rt")])).2 "a" "b" (by decide) rfl
      (by decide) (by decide) (by decide)⟩

/-- C10: a nonce cookie or state parameter that is present but the empty
string is treated as missing — the falsiness check fires first, so the
response is 401 "Missing nonce", never "Invalid nonce". -/
theorem frameHandler_empty_nonce_is_missing (provider : String)
    (reqCookies : JsObj) (stateQuery : Option String)
    (exchange : ExchangeResult)
    (h : jsGet reqCookies (provider ++ "-nonce") = some "" ∨
      stateQuery = some "") :
    frameHandler provider reqCookies stateQuery exchange =
      ⟨[], false, .text 401 "Missing nonce"⟩ := by
  rcases h with h | h <;> simp [frameHandler, jsFalsy, h]

/-- Witness for C10: an empty-string nonce cookie alongside a non-empty
state parameter still reports "Missing nonce". -/
theorem frameHandler_empty_nonce_is_missing_witness :
    frameHandler "google" [("google-nonce", "")] (some "x")
        (.excOk [("refreshToken", "rt")]) =
      ⟨[], false, .text 401 "Missing nonce"⟩ :=
  frameHandler_empty_nonce_is_missing "google" [("google-nonce", "")]
    (some "x") (.excOk [("refreshToken", "rt")]) (Or.inl (by decide))

/-- C4: when the `X-Requested-With` check fails, both `refresh` and
`logout` respond 401 "Invalid X-Requested-With header" with an empty effect
trace: no cookie is read, no cookie is written, and the IdP is not
called. -/
theorem csrf_header_guard (provider : String) (hdr : Option String)
    (reqCookies : JsObj) (scopeQuery : Option String) (grant : RefreshGrant)
    (h : ensuresXRequestedWith hdr = false) :
    refresh provider hdr reqCookies scopeQuery grant =
      ⟨[], .text 401 "Invalid X-Requested-With header"⟩ ∧
    logout provider hdr =
      ⟨[], .text 401 "Invalid X-Requested-With header"⟩ := by
  constructor <;> simp [refresh, logout, h]

/-- Witness for C4 at a concrete request with no `X-Requested-With`
header. -/
theorem csrf_header_guard_witness :
    refresh "google" none [("google-refresh-token", "rt")] none
        ⟨none, some "a", none, ⟨none, none, none⟩⟩ =
      ⟨[], .text 401 "Invalid X-Requested-With header"⟩ ∧
    logout "google" none =
      ⟨[], .text 401 "Invalid X-Requested-With header"⟩ :=
  csrf_header_guard "google" none [("google-refresh-token", "rt")] none
    ⟨none, some "a", none, ⟨none, none, none⟩⟩ (by decide)

/-- C5 counterexample: a `start` request with no scope does fail with the
`InputError`, but the nonce cookie HAS been set on the response — the code
sets it before validating the scope — refuting the claim that no nonce
cookie is set. -/
theorem start_missing_scope_sets_nonce_cookie :
    (start "google" (List.replicate 16 0) none).outcome =
      .inputError "missing scope parameter" ∧
    (start "google" (List.replicate 16 0) none).cookies ≠ [] := by
  constructor <;> decide

/-- C5 (amended): with an empty or missing scope, `start` fails with
`InputError` "missing scope parameter" and never delegates to the OAuth2
client, but the nonce cookie has already been set on the response. -/
theorem start_missing_scope (provider : String) (randomBytes : List Nat)
    (scopeQuery : Option String) (h : scopeQuery.getD "" = "") :
    (start provider randomBytes scopeQuery).outcome =
      .inputError "missing scope parameter" ∧
    (∀ s a p st, (start provider randomBytes scopeQuery).outcome ≠
      .authenticate s a p st) ∧
    (start provider randomBytes scopeQuery).cookies =
      [⟨provider ++ "-nonce", base64Encode randomBytes,
        nonceCookieOptions provider⟩] := by
  refine ⟨?_, ?_, ?_⟩ <;> simp [start, h]

/-- Witness for the amended C5 at a concrete scopeless request. -/
theorem start_missing_scope_witness :
    (start "google" [1, 2, 3] none).outcome =
      .inputError "missing scope parameter" ∧
    (∀ s a p st,
      (start "google" [1, 2, 3] none).outcome ≠ .authenticate s a p st) ∧
    (start "google" [1, 2, 3] none).cookies =
      [⟨"google-nonce", base64Encode [1, 2, 3],
        nonceCookieOptions "google"⟩] :=
  start_missing_scope "google" [1, 2, 3] none (by decide)

/-- C6: with a non-empty scope, `start` delegates to the OAuth2 client
with a `state` equal to the value of the nonce cookie set on the same
response, and that nonce is the base64 encoding of the 16 bytes the random
generator returned. -/
theorem start_nonce_binds_state (provider : String) (randomBytes : List Nat)
    (scopeQuery : Option String) (hlen : randomBytes.length = 16)
    (hs : scopeQuery.getD "" ≠ "") :
    ∃ st, (start provider randomBytes scopeQuery).outcome =
        .authenticate (scopeQuery.getD "") "offline" "consent" st ∧
      (start provider randomBytes scopeQuery).cookies =
        [⟨provider ++ "-nonce", st, nonceCookieOptions provider⟩] ∧
      st = base64Encode randomBytes ∧ 16 ≤ randomBytes.length := by
  exact ⟨base64Encode randomBytes, by simp [start, hs], by simp [start, hs],
    rfl, by omega⟩

/-- Witness for C6 at a concrete request with 16 zero bytes of
randomness. -/
theorem start_nonce_binds_state_witness :
    ∃ st, (start "google" (List.replicate 16 0) (some "openid")).outcome =
        .authenticate "openid" "offline" "consent" st ∧
      (start "google" (List.replicate 16 0) (some "openid")).cookies =
        [⟨"google-nonce", st, nonceCookieOptions "google"⟩] ∧
      st = base64Encode (List.replicate 16 0) ∧
      16 ≤ (List.replicate 16 (0 : Nat)).length :=
  start_nonce_binds_state "google" (List.replicate 16 0) (some "openid")
    (by decide) (by decide)

/-- C7: a `refresh` with a valid `X-Requested-With` header but no
refresh-token cookie responds 401 "Missing session cookie" having only read
the cookie, and never calls the IdP refresh grant. -/
theorem refresh_missing_cookie (provider : String) (hdr : Option String)
    (reqCookies : JsObj) (scopeQuery : Option String) (grant : RefreshGrant)
    (hh : ensuresXRequestedWith hdr = true)
    (hc : jsGet reqCookies (provider ++ "-refresh-token") = none) :
    refresh provider hdr reqCookies scopeQuery grant =
      ⟨[.readCookie (provider ++ "-refresh-token")],
        .text 401 "Missing session cookie"⟩ ∧
    ∀ t s, Effect.idpRefreshCall t s ∉
      (refresh provider hdr reqCookies scopeQuery grant).effects := by
  have h1 : refresh provider hdr reqCookies scopeQuery grant =
      ⟨[.readCookie (provider ++ "-refresh-token")],
        .text 401 "Missing session cookie"⟩ := by
    simp [refresh, hh, jsFalsy, hc]
  exact ⟨h1, fun t s => by simp [h1]⟩

/-- Witness for C7 at a concrete cookieless request. -/
theorem refresh_missing_cookie_witness :
    refresh "google" (some "XMLHttpRequest") [] none
        ⟨none, some "a", none, ⟨none, none, none⟩⟩ =
      ⟨[.readCookie "google-refresh-token"],
        .text 401 "Missing session cookie"⟩ ∧
    ∀ t s, Effect.idpRefreshCall t s ∉
      (refresh "google" (some "XMLHttpRequest") [] none
        ⟨none, some "a", none, ⟨none, none, none⟩⟩).effects :=
  refresh_missing_cookie "google" (some "XMLHttpRequest") [] none
    ⟨none, some "a", none, ⟨none, none, none⟩⟩ (by decide) (by decide)

/-- C8: once the refresh grant is reached (header valid, truthy cookie), a
grant error or missing new access token yields 401 "Failed to refresh
access token"; otherwise the 200 body is exactly
`{ accessToken, idToken, expiresInSeconds, scope }`, with no refreshToken
field. -/
theorem refresh_grant_outcome (provider : String) (hdr : Option String)
    (reqCookies : JsObj) (scopeQuery : Option String) (grant : RefreshGrant)
    (rt : String) (hh : ensuresXRequestedWith hdr = true)
    (hc : jsGet reqCookies (provider ++ "-refresh-token") = some rt)
    (hne : rt ≠ "") :
    ((grant.err.isSome ∨ jsFalsy grant.accessToken) →
      (refresh provider hdr reqCookies scopeQuery grant).response =
        .text 401 "Failed to refresh access token") ∧
    (∀ tok, grant.err = none → grant.accessToken = some tok → tok ≠ "" →
      ∃ body, (refresh provider hdr reqCookies scopeQuery grant).response =
          .json body ∧
        body = [("accessToken", some tok),
          ("idToken", grant.params.id_token),
          ("expiresInSeconds", grant.params.expires_in),
          ("scope", grant.params.scope)] ∧
        body.map Prod.fst =
          ["accessToken", "idToken", "expiresInSeconds", "scope"] ∧
        "refreshToken" ∉ body.map Prod.fst) := by
  constructor
  · rintro (hf | hf)
    · simp [refresh, jsFalsy, hh, hc, hne, hf]
    · rcases hf with hf | hf <;> simp [refresh, jsFalsy, hh, hc, hne, hf]
  · intro tok he ha hane
    refine ⟨_, ?_, rfl, by simp, by simp⟩
    simp [refresh, jsFalsy, hh, hc, hne, he, ha, hane]

/-- Witness for C8: one grant that errors, one that succeeds, at concrete
requests. -/
theorem refresh_grant_outcome_witness :
    (refresh "google" (some "XMLHttpRequest")
        [("google-refresh-token", "rt")] none
        ⟨some "e", none, none, ⟨none, none, none⟩⟩).response =
      .text 401 "Failed to refresh access token" ∧
    ∃ body, (refresh "google" (some "XMLHttpRequest")
        [("google-refresh-token", "rt")] none
        ⟨none, some "a", none,
          ⟨some "id", some "3600", some "s"⟩⟩).response = .json body ∧
      body = [("accessToken", some "a"), ("idToken", some "id"),
        ("expiresInSeconds", some "3600"), ("scope", some "s")] ∧
      body.map Prod.fst =
        ["accessToken", "idToken", "expiresInSeconds", "scope"] ∧
      "refreshToken" ∉ body.map Prod.fst :=
  ⟨(refresh_grant_outcome "google" (some "XMLHttpRequest")
      [("google-refresh-token", "rt")] none
      ⟨some "e", none, none, ⟨none, none, none⟩⟩ "rt"
      (by decide) (by decide) (by decide)).1 (Or.inl (by decide)),
   (refresh_grant_outcome "google" (some "XMLHttpRequest")
      [("google-refresh-token", "rt")] none
      ⟨none, some "a", none, ⟨some "id", some "3600", some "s"⟩⟩ "rt"
      (by decide) (by decide) (by decide)).2 "a" rfl rfl (by decide)⟩

/-- C9: the cookie attribute policy — the nonce cookie set by `start` has
maxAge 600000 ms and the handler-scoped path; any cookie set by
`frameHandler` is the refresh-token cookie with maxAge 86400000000 ms
(1000 days) and the provider-scoped path; `logout` clears the refresh-token
cookie (empty value, maxAge 0, same path); all are httpOnly. -/
theorem cookie_attribute_policy (provider : String) :
    TEN_MINUTES_MS = 600000 ∧ THOUSAND_DAYS_MS = 86400000000 ∧
    (∀ randomBytes scopeQuery,
      (start provider randomBytes scopeQuery).cookies =
        [⟨provider ++ "-nonce", base64Encode randomBytes,
          ⟨600000, false, "none", "localhost",
            "/auth/" ++ provider ++ "/handler", true⟩⟩]) ∧
    (∀ reqCookies stateQuery exchange,
      ∀ c ∈ (frameHandler provider reqCookies stateQuery exchange).cookies,
        c.name = provider ++ "-refresh-token" ∧
        c.options = ⟨86400000000, false, "none", "localhost",
          "/auth/" ++ provider, true⟩) ∧
    (∀ hdr, ensuresXRequestedWith hdr = true →
      (logout provider hdr).effects =
        [.writeCookie ⟨provider ++ "-refresh-token", "",
          ⟨0, false, "none", "localhost", "/auth/" ++ provider, true⟩⟩]) := by
  refine ⟨by decide, by decide, ?_, ?_, ?_⟩
  · intro randomBytes scopeQuery
    by_cases h : scopeQuery.getD "" = "" <;>
      simp [start, h, nonceCookieOptions, TEN_MINUTES_MS]
  · intro reqCookies stateQuery exchange c hc
    by_cases h1 :
        jsFalsy (jsGet reqCookies (provider ++ "-nonce")) ∨ jsFalsy stateQuery
    · simp [frameHandler, h1] at hc
    · simp only [not_or] at h1
      by_cases h2 : jsGet reqCookies (provider ++ "-nonce") = stateQuery
      · rcases exchange with e | user
        · simp [frameHandler, h1.1, h1.2, h2] at hc
        · by_cases h3 : jsFalsy (jsGet user "refreshToken")
          · simp [frameHandler, h1.1, h1.2, h2, h3] at hc
          · simp [frameHandler, h1.1, h1.2, h2, h3] at hc
            subst hc
            exact ⟨rfl, by simp [refreshCookieOptions, THOUSAND_DAYS_MS]⟩
      · simp [frameHandler, h1.1, h1.2, h2] at hc
  · intro hdr hh
    simp [logout, hh, logoutCookieOptions]

/-- Witness for C9: the start and logout conjuncts at concrete requests. -/
theorem cookie_attribute_policy_witness :
    (start "google" [1] (some "s")).cookies =
      [⟨"google-nonce", base64Encode [1],
        ⟨600000, false, "none", "localhost", "/auth/google/handler",
          true⟩⟩] ∧
    (logout "google" (some "XMLHttpRequest")).effects =
      [.writeCookie ⟨"google-refresh-token", "",
        ⟨0, false, "none", "localhost", "/auth/google", true⟩⟩] :=
  ⟨(cookie_attribute_policy "google").2.2.1 [1] (some "s"),
   (cookie_attribute_policy "google").2.2.2.2 (some "XMLHttpRequest")
     (by decide)⟩
